import Mathlib

/-!
Shallow embedding of the Jarvis assistant command-dispatch core
(src/jarvis.py).  Text is modelled as lists of ASCII code points
(List Nat); external collaborators (wikipedia, googlesearch, requests,
OS actions, dialogs) are oracles collected in an Env record, with
Except Unit modelling a raised exception at the collaborator boundary;
observable side effects (speech, log lines, browser opens, OS calls,
sleeps) are recorded as an ordered List Effect.  Time units appear in
tenths, so the 0.5 second backoff sleep is sleepTenths 5.
-/

/-- Encode a Lean string literal as a list of code points. -/
def enc (s : String) : List Nat := s.data.map Char.toNat

/-- ASCII whitespace, the characters Python str.strip and the regex class backslash-s treat as space. -/
def isSpc (n : Nat) : Bool := n == 32 || n == 9 || n == 10 || n == 13 || n == 11 || n == 12

/-- ASCII model of Python str.lower on one code point. -/
def lowerN (n : Nat) : Nat := if 65 ≤ n ∧ n ≤ 90 then n + 32 else n

/-- ASCII model of the character class kept by the sub in normalize_text: word characters or whitespace. -/
def keepN (n : Nat) : Bool :=
  (decide (97 ≤ n) && decide (n ≤ 122)) || (decide (65 ≤ n) && decide (n ≤ 90)) ||
  (decide (48 ≤ n) && decide (n ≤ 57)) || n == 95 || isSpc n

/-- Python str.strip: drop leading and trailing whitespace. -/
def trim (l : List Nat) : List Nat :=
  ((l.dropWhile isSpc).reverse.dropWhile isSpc).reverse

/-- Model of jarvis.py normalize_text: remove characters outside word/space classes, lowercase, strip. -/
def normalize_text (t : List Nat) : List Nat :=
  trim ((t.filter keepN).map lowerN)

/-- Boolean test that pat is a leading segment of the second list (Python str.startswith). -/
def startsL : List Nat → List Nat → Bool
| [], _ => true
| _ :: _, [] => false
| p :: ps, c :: cs => p == c && startsL ps cs

/-- Boolean substring test (the Python in operator on strings). -/
def hasSub (pat : List Nat) : List Nat → Bool
| [] => startsL pat []
| c :: cs => startsL pat (c :: cs) || hasSub pat cs

/-- Everything after the first literal space, when one exists: Python split with maxsplit one, index one. -/
def afterSpace (l : List Nat) : Option (List Nat) :=
  match l.dropWhile (fun c => !(c == 32)) with
  | [] => none
  | _ :: r => some r

/-- Whitespace-run tokenization, Python str.split with no arguments. -/
def wordsOf (l : List Nat) : List (List Nat) :=
  (List.splitOnP isSpc l).filter (fun w => !w.isEmpty)

/-- The configured wake phrase, constant WAKEWORD in jarvis.py. -/
def WAKEWORD : List Nat := enc "hey jarvis"

/-- Model of jarvis.py has_wakeword: empty text is rejected, otherwise the normalized
text must start with the wake phrase or with the bare keyword jarvis. -/
def has_wakeword (t : List Nat) : Bool :=
  if t = [] then false
  else startsL WAKEWORD (normalize_text t) || startsL (enc "jarvis") (normalize_text t)

/-- Case-insensitive literal match at the head of a list; pattern is given lowercase.
Returns the remainder on success.  Used to embed the literal pieces of the
wakeword-stripping regex with its IGNORECASE flag. -/
def matchCI : List Nat → List Nat → Option (List Nat)
| [], s => some s
| _ :: _, [] => none
| p :: ps, c :: cs => if lowerN c = p then matchCI ps cs else none

/-- Characters of the trailing separator run consumed after jarvis: comma, colon, whitespace, hyphen. -/
def isSepCh (n : Nat) : Bool := n == 44 || n == 58 || n == 45 || isSpc n

/-- Model of jarvis.py strip_wakeword: strip the input, delete one leading match of the
anchored regex (optional hey plus commas plus whitespace, then jarvis, then a run of
comma/colon/whitespace/hyphen), case-insensitively, and strip the remainder.  The
optional group is tried first and abandoned if jarvis does not follow, exactly as the
regex engine backtracks. -/
def strip_wakeword (t : List Nat) : List Nat :=
  if t = [] then t
  else
    let n := trim t
    let s1 := n.dropWhile isSpc
    let viaGroup : Option (List Nat) :=
      match matchCI (enc "hey") s1 with
      | some r1 =>
        let r2 := r1.dropWhile (fun c => c == 44)
        match r2 with
        | [] => none
        | c :: rest => if isSpc c then matchCI (enc "jarvis") (rest.dropWhile isSpc) else none
      | none => none
    let afterJ : Option (List Nat) :=
      match viaGroup with
      | some r => some r
      | none => matchCI (enc "jarvis") s1
    match afterJ with
    | some r => trim (r.dropWhile isSepCh)
    | none => n

/-- Result of fetching and parsing one candidate URL inside google_first_snippet:
HTTP status, the optional page title string, and the optional first paragraph text. -/
structure Page where
  status : Nat
  title : Option (List Nat)
  para : Option (List Nat)
deriving DecidableEq

/-- External collaborators of the dispatch core, one oracle per boundary of jarvis.py.
An Except.error value models the collaborator raising an exception at the call. -/
structure Env where
  wiki : List Nat → Except Unit (List Nat)
  googleAvail : Bool
  googleUrls : List Nat → Except Unit (List (List Nat))
  fetch : List Nat → Except Unit Page
  openFolderRes : List Nat → Bool × List Nat
  openAppRes : List Nat → Bool
  requote : List Nat → List Nat
  screenshotRes : Except Unit (Option (List Nat))
  home : List Nat

/-- Observable side effects of the dispatch core, recorded in program order. -/
inductive Effect
| speak (msg : List Nat)
| logMsg (msg : List Nat)
| browserOpen (url : List Nat)
| shutdownCall (confirm : Bool)
| restartCall (confirm : Bool)
| osShutdown
| osRestart
| openFolderCall (path : List Nat)
| openAppCall (nm : List Nat)
| screenshotSaved (path : List Nat)
| capturePhotoCall
| wikiLookup (q : List Nat)
| webLookup (q : List Nat)
| sleepTenths (n : Nat)
deriving DecidableEq

/-- The classified intent of one command, tagging which dispatch branch executed. -/
inductive Intent
| openFolder (path : List Nat)
| openAppOrUrl (target : List Nat)
| shutdownIntent
| restartIntent
| screenshotIntent
| capturePhotoIntent
| knowledgeQuery (q : List Nat)
| genericSearch (q : List Nat)
deriving DecidableEq

/-- Tagged result of the knowledge-resolution chain. -/
inductive LookupOutcome
| found (text : List Nat) (source : List Nat)
| notFound
deriving DecidableEq

/-- Model of jarvis.py search_wikipedia: the summary on success, None when the
wikipedia collaborator raises. -/
def search_wikipedia (env : Env) (query : List Nat) : Option (List Nat) :=
  match env.wiki query with
  | Except.ok s => some s
  | Except.error _ => none

/-- The generic browser search URL built from a query. -/
def searchUrl (env : Env) (q : List Nat) : List Nat :=
  enc "https://www.google.com/search?q=" ++ env.requote q

/-- The per-URL loop of google_first_snippet: skip a candidate whose fetch raises or
whose status is not 200; at the first remaining candidate return the title with the
first-paragraph snippet and source URL, or title with source URL when the stripped
paragraph text is empty. -/
def snippetLoop (env : Env) : List (List Nat) → Option (List Nat)
| [] => none
| url :: rest =>
  match env.fetch url with
  | Except.error _ => snippetLoop env rest
  | Except.ok pg =>
    if pg.status ≠ 200 then snippetLoop env rest
    else
      let title := (pg.title.map trim).getD url
      let snippet := (pg.para.map trim).getD []
      if snippet ≠ [] then
        some (title ++ enc "\n\n" ++ snippet ++ enc "\n\nSource: " ++ url)
      else
        some (title ++ enc "\n\nSource: " ++ url)

/-- Model of jarvis.py google_first_snippet: when the googlesearch collaborator is
missing or URL discovery raises, open a browser search and return None; otherwise run
the candidate loop with no further observable effects. -/
def google_first_snippet (env : Env) (query : List Nat) : Option (List Nat) × List Effect :=
  if env.googleAvail then
    match env.googleUrls query with
    | Except.ok urls => (snippetLoop env urls, [])
    | Except.error _ => (none, [Effect.browserOpen (searchUrl env query)])
  else (none, [Effect.browserOpen (searchUrl env query)])

/-- Model of jarvis.py system_shutdown: without confirmation it refuses and has no OS
effect; with confirmation it issues the OS shutdown command.  The Popen failure path
is not modelled (the OS collaborator is assumed reachable). -/
def system_shutdown (confirm : Bool) : (Bool × List Nat) × List Effect :=
  if confirm then ((true, enc "Shutdown initiated"), [Effect.osShutdown])
  else ((false, enc "Confirmation required"), [])

/-- Model of jarvis.py system_restart, with the same confirmation guard. -/
def system_restart (confirm : Bool) : (Bool × List Nat) × List Effect :=
  if confirm then ((true, enc "Restart initiated"), [Effect.osRestart])
  else ((false, enc "Confirmation required"), [])

/-- The interrogative keywords of the question heuristic in process_command. -/
def qwords : List (List Nat) :=
  [enc "who", enc "what", enc "when", enc "where", enc "why", enc "how", enc "which"]

/-- Branch body for an open folder / open directory command (source lines 449-460):
the path argument is the remainder after the second space of the original-case text,
defaulting to the user home directory. -/
def openFolderBranch (env : Env) (t : List Nat) : Option Intent × List Effect :=
  let path := ((afterSpace t).bind afterSpace).getD env.home
  let r := env.openFolderRes path
  if r.1 then
    (some (Intent.openFolder path),
     [Effect.openFolderCall path, Effect.logMsg (enc "Opened folder: " ++ path),
      Effect.speak (enc "Opened folder.")])
  else
    (some (Intent.openFolder path),
     [Effect.openFolderCall path, Effect.logMsg (enc "Failed to open folder: " ++ r.2),
      Effect.speak (enc "I could not open that folder.")])

/-- Branch body for an open / launch command (source lines 462-476): the remainder
after the first space is a URL when it starts with http, else an application name. -/
def openAppBranch (env : Env) (t : List Nat) : Option Intent × List Effect :=
  let target := (afterSpace t).getD []
  if startsL (enc "http") target then
    (some (Intent.openAppOrUrl target),
     [Effect.browserOpen target, Effect.speak (enc "Opening browser.")])
  else if env.openAppRes target then
    (some (Intent.openAppOrUrl target),
     [Effect.openAppCall target, Effect.logMsg (enc "Opened application: " ++ target),
      Effect.speak (enc "Opening " ++ target)])
  else
    (some (Intent.openAppOrUrl target),
     [Effect.openAppCall target, Effect.logMsg (enc "Failed to open application: " ++ target),
      Effect.speak (enc "I could not open that application.")])

/-- Branch body for a command containing shutdown (source lines 478-487): with
confirm or yes also present the collaborator is invoked with confirmation, otherwise
only a confirmation request is emitted. -/
def shutdownBranch (tl : List Nat) : Option Intent × List Effect :=
  if hasSub (enc "confirm") tl || hasSub (enc "yes") tl then
    let r := system_shutdown true
    (some Intent.shutdownIntent,
     Effect.shutdownCall true :: r.2 ++
       [Effect.logMsg r.1.2, Effect.speak (enc "Shutting down. Goodbye.")])
  else
    (some Intent.shutdownIntent,
     [Effect.logMsg (enc "Shutdown requested - confirmation required. Say 'shutdown confirm' to proceed."),
      Effect.speak (enc "Shutdown requested. Say shutdown confirm to proceed.")])

/-- Branch body for a command containing restart or reboot (source lines 489-497),
with the same confirmation gate as shutdown. -/
def restartBranch (tl : List Nat) : Option Intent × List Effect :=
  if hasSub (enc "confirm") tl || hasSub (enc "yes") tl then
    let r := system_restart true
    (some Intent.restartIntent,
     Effect.restartCall true :: r.2 ++
       [Effect.logMsg r.1.2, Effect.speak (enc "Restarting now.")])
  else
    (some Intent.restartIntent,
     [Effect.logMsg (enc "Restart requested - confirmation required. Say 'restart confirm' to proceed."),
      Effect.speak (enc "Restart requested. Say restart confirm to proceed.")])

/-- Branch body for a screenshot command (source lines 499-514): a raised exception
is reported, a cancelled save dialog is a logged no-op, otherwise the image is saved. -/
def screenshotBranch (env : Env) : Option Intent × List Effect :=
  match env.screenshotRes with
  | Except.error _ =>
    (some Intent.screenshotIntent,
     [Effect.logMsg (enc "Screenshot failed."), Effect.speak (enc "I could not take a screenshot.")])
  | Except.ok (some path) =>
    (some Intent.screenshotIntent,
     [Effect.screenshotSaved path, Effect.logMsg (enc "Screenshot saved to " ++ path),
      Effect.speak (enc "Screenshot saved.")])
  | Except.ok none =>
    (some Intent.screenshotIntent, [Effect.logMsg (enc "Screenshot cancelled.")])

/-- Branch body for a wikipedia / wiki prefixed query (source lines 522-539): the
structured lookup, then on falsy result the web snippet stage, with no browser
fallback in this branch. -/
def wikiBranch (env : Env) (t : List Nat) : Option Intent × List Effect :=
  let q := (afterSpace t).getD []
  let base := [Effect.logMsg (enc "Searching Wikipedia for: " ++ q),
               Effect.speak (enc "Searching Wikipedia for " ++ q), Effect.wikiLookup q]
  let fallback :=
    let w := google_first_snippet env q
    [Effect.logMsg (enc "No Wikipedia result."),
     Effect.speak (enc "I could not find a wikipedia entry. I'll search the web."),
     Effect.webLookup q] ++ w.2 ++
    (match w.1 with
     | some wa => [Effect.logMsg wa, Effect.speak wa]
     | none => [Effect.speak (enc "I couldn't find an answer.")])
  match search_wikipedia env q with
  | some a =>
    if a ≠ [] then
      (some (Intent.knowledgeQuery q),
       base ++ [Effect.logMsg (enc "Wikipedia: " ++ a), Effect.speak a])
    else (some (Intent.knowledgeQuery q), base ++ fallback)
  | none => (some (Intent.knowledgeQuery q), base ++ fallback)

/-- Branch body for a detected question (source lines 543-560): structured lookup,
then the web snippet stage, then the browser search as last resort. -/
def questionBranch (env : Env) (t : List Nat) : Option Intent × List Effect :=
  let base := [Effect.logMsg (enc "Question detected: " ++ t),
               Effect.speak (enc "Let me look that up."), Effect.wikiLookup t]
  let fallback :=
    let w := google_first_snippet env t
    Effect.webLookup t :: w.2 ++
    (match w.1 with
     | some wa => [Effect.logMsg wa, Effect.speak wa]
     | none => [Effect.browserOpen (searchUrl env t),
                Effect.speak (enc "I opened the browser with search results.")])
  match search_wikipedia env t with
  | some a =>
    if a ≠ [] then
      (some (Intent.knowledgeQuery t),
       base ++ [Effect.logMsg (enc "Wikipedia: " ++ a), Effect.speak a])
    else (some (Intent.knowledgeQuery t), base ++ fallback)
  | none => (some (Intent.knowledgeQuery t), base ++ fallback)

/-- Default branch (source lines 562-578): open the first discovered result, or a
generic browser search when discovery is unavailable, raises, or yields nothing. -/
def genericBranch (env : Env) (t : List Nat) : Option Intent × List Effect :=
  let base := [Effect.logMsg (enc "No direct action matched. Searching web for: " ++ t),
               Effect.speak (enc "Searching the web for " ++ t)]
  let fb := [Effect.browserOpen (searchUrl env t),
             Effect.speak (enc "I opened the browser with search results.")]
  if env.googleAvail then
    match env.googleUrls t with
    | Except.ok (u :: _) =>
      (some (Intent.genericSearch t),
       base ++ [Effect.browserOpen u, Effect.logMsg (enc "Opened " ++ u),
                Effect.speak (enc "I opened the first result in your browser.")])
    | Except.ok [] => (some (Intent.genericSearch t), base ++ fb)
    | Except.error _ => (some (Intent.genericSearch t), base ++ fb)
  else (some (Intent.genericSearch t), base ++ fb)

/-- Model of JarvisApp.process_command: trim, lowercase, then ordered first-match
classification dispatching to exactly one branch body; returns the matched intent
(none for empty text) and the ordered effect trace (source lines 442-578). -/
def process_command (env : Env) (text : List Nat) : Option Intent × List Effect :=
  let t := trim text
  if t = [] then (none, [])
  else
    let tl := trim (t.map lowerN)
    if startsL (enc "open folder") tl || startsL (enc "open directory") tl then
      openFolderBranch env t
    else if startsL (enc "open ") tl || startsL (enc "launch ") tl then
      openAppBranch env t
    else if hasSub (enc "shutdown") tl then
      shutdownBranch tl
    else if hasSub (enc "restart") tl || hasSub (enc "reboot") tl then
      restartBranch tl
    else if hasSub (enc "screenshot") tl || hasSub (enc "screen shot") tl then
      screenshotBranch env
    else if hasSub (enc "capture") tl && (hasSub (enc "photo") tl || hasSub (enc "picture") tl) then
      (some Intent.capturePhotoIntent, [Effect.capturePhotoCall])
    else if startsL (enc "wikipedia ") tl || startsL (enc "wiki ") tl then
      wikiBranch env t
    else if qwords.any (fun w => (wordsOf tl).contains w) then
      questionBranch env t
    else
      genericBranch env t

/-- Knowledge Resolver chain of the spec, as realized by the structured-then-web
sequence of process_command (source lines 543-556): the structured stage first, its
non-empty result short-circuiting, otherwise the web stage; both failing is NotFound. -/
def resolve (env : Env) (q : List Nat) : LookupOutcome × List Effect :=
  let webStage : LookupOutcome × List Effect :=
    let w := google_first_snippet env q
    ((match w.1 with
      | some s => LookupOutcome.found s (enc "web")
      | none => LookupOutcome.notFound),
     Effect.wikiLookup q :: Effect.webLookup q :: w.2)
  match search_wikipedia env q with
  | some s =>
    if s ≠ [] then (LookupOutcome.found s (enc "structured"), [Effect.wikiLookup q])
    else webStage
  | none => webStage

/-- Model of JarvisApp.on_command, the typed-command path: strip the entry text,
drop empty input, strip the wakeword when present but keep the original text when
stripping leaves nothing (the Python or-else idiom), then dispatch.  Returns the
dispatched text, the matched intent, and the effect trace. -/
def on_command (env : Env) (entry : List Nat) : Option (List Nat) × Option Intent × List Effect :=
  let txt := trim entry
  if txt = [] then (none, none, [])
  else
    let txt2 := if has_wakeword txt then (if strip_wakeword txt = [] then txt else strip_wakeword txt) else txt
    let r := process_command env txt2
    (some txt2, r.1, Effect.logMsg (enc "Command: " ++ txt2) :: r.2)

/-- One handled voice utterance inside the listening loop (source lines 402-426):
log the raw text; without a wakeword log and discard; with a bare wakeword speak an
acknowledgment, sleep, and consume one follow-up capture, dispatching it when
non-empty; otherwise dispatch the stripped command.  Returns the effects and the
remaining capture stream. -/
def voiceIteration (env : Env) (txt : List Nat) (captures : List (Option (List Nat))) :
    List Effect × List (Option (List Nat)) :=
  let base := [Effect.logMsg (enc "Voice raw: " ++ txt)]
  if has_wakeword txt then
    let cmd := strip_wakeword txt
    if cmd = [] then
      let follow := captures.headD none
      (base ++ [Effect.logMsg (enc "Wakeword detected but no command followed."),
                Effect.speak (enc "Yes?"), Effect.sleepTenths 6] ++
        (match follow with
         | some f =>
           if f = [] then []
           else Effect.logMsg (enc "Follow-up voice: " ++ f) :: (process_command env f).2
         | none => []), captures.tail)
    else
      (base ++ [Effect.logMsg (enc "Wakeword detected. Command: " ++ cmd),
                Effect.speak (enc "Processing your command.")] ++ (process_command env cmd).2,
       captures)
  else
    (base ++ [Effect.logMsg (enc "No wakeword detected in speech; ignoring.")], captures)

/-- Model of JarvisApp listening loop: the session flag is read once at the top of
each iteration (the flags list is the trace of those reads); each iteration consumes
one capture result from the stream; a falsy capture sleeps the fixed half-unit
backoff and re-polls; the loop also ends when either trace is exhausted. -/
def listening_loop (env : Env) : List Bool → List (Option (List Nat)) → List Effect
| [], _ => []
| flag :: fs, captures =>
  if flag then
    match captures with
    | [] => []
    | none :: cs => Effect.sleepTenths 5 :: listening_loop env fs cs
    | some txt :: cs =>
      if txt = [] then Effect.sleepTenths 5 :: listening_loop env fs cs
      else
        let step := voiceIteration env txt cs
        step.1 ++ listening_loop env fs step.2
  else []

/-! Helper lemmas and concrete environments. -/

/-- Environment whose collaborators return fixed results, used to instantiate
env-generic theorems at concrete collaborator behaviors. -/
def mkEnv (wres : Except Unit (List Nat)) (gA : Bool) (gUres : Except Unit (List (List Nat)))
    (fres : List Nat → Except Unit Page) (oFres : Bool × List Nat) (oAres : Bool)
    (rq : List Nat → List Nat) (sres : Except Unit (Option (List Nat))) (hm : List Nat) : Env :=
  { wiki := fun _ => wres, googleAvail := gA, googleUrls := fun _ => gUres, fetch := fres,
    openFolderRes := fun _ => oFres, openAppRes := fun _ => oAres, requote := rq,
    screenshotRes := sres, home := hm }

/-- Baseline concrete environment: every collaborator succeeds. -/
def envOk : Env :=
  mkEnv (Except.ok (enc "W")) true (Except.ok [enc "http://a"])
    (fun _ => Except.ok ⟨200, some (enc "T"), some (enc "P")⟩)
    (true, enc "Opened") true (fun q => q) (Except.ok none) (enc "HOME")

/-- Concrete environment without the googlesearch collaborator. -/
def envNoGoogle : Env :=
  mkEnv (Except.error ()) false (Except.ok []) (fun _ => Except.error ())
    (true, enc "Opened") true (fun q => q) (Except.ok none) (enc "HOME")

/-- Concrete environment where every lookup collaborator raises. -/
def envAllRaise : Env :=
  mkEnv (Except.error ()) true (Except.error ()) (fun _ => Except.error ())
    (true, enc "Opened") true (fun q => q) (Except.error ()) (enc "HOME")

/-- Concrete environment: wikipedia raises, web discovery succeeds with one good page. -/
def envWebOnly : Env :=
  mkEnv (Except.error ()) true (Except.ok [enc "u"])
    (fun _ => Except.ok ⟨200, some (enc "T"), some (enc "P")⟩)
    (true, enc "Opened") true (fun q => q) (Except.ok none) (enc "HOME")

/-- Concrete environment: wikipedia raises and web discovery yields no candidates. -/
def envNoneFound : Env :=
  mkEnv (Except.error ()) true (Except.ok []) (fun _ => Except.error ())
    (true, enc "Opened") true (fun q => q) (Except.ok none) (enc "HOME")

/-- Concrete environment whose single web candidate is a 200 page with no title tag
and no paragraph tag. -/
def envEmptyPage : Env :=
  mkEnv (Except.error ()) true (Except.ok [enc "u"]) (fun _ => Except.ok ⟨200, none, none⟩)
    (true, enc "Opened") true (fun q => q) (Except.ok none) (enc "HOME")

/-- Concrete environment whose single web candidate answers with a 404 status. -/
def env404 : Env :=
  mkEnv (Except.error ()) true (Except.ok [enc "u"])
    (fun _ => Except.ok ⟨404, some (enc "T"), some (enc "P")⟩)
    (true, enc "Opened") true (fun q => q) (Except.ok none) (enc "HOME")

/-- Effects that act on the OS power state: the shutdown and restart collaborator
invocations and the underlying OS commands. -/
def isDestructive : Effect → Bool
| Effect.shutdownCall _ => true
| Effect.restartCall _ => true
| Effect.osShutdown => true
| Effect.osRestart => true
| _ => false

theorem dropWhile_dropWhile (p : Nat → Bool) (l : List Nat) :
    (l.dropWhile p).dropWhile p = l.dropWhile p := by
  induction l with
  | nil => rfl
  | cons a as ih =>
    by_cases h : p a = true
    · simp [List.dropWhile_cons, h, ih]
    · simp [List.dropWhile_cons, h]

theorem dropWhile_eq_self_of_append (p : Nat → Bool) (x s a : List Nat)
    (ha : a.dropWhile p = a) (hxs : a = x ++ s) : x.dropWhile p = x := by
  cases x with
  | nil => rfl
  | cons c cs =>
    subst hxs
    by_cases h : p c = true
    · exfalso
      simp only [List.cons_append, List.dropWhile_cons, if_pos h] at ha
      have hle := (List.dropWhile_sublist (l := cs ++ s) p).length_le
      have h2 := congrArg List.length ha
      rw [List.length_cons] at h2
      omega
    · simp [List.dropWhile_cons, h]

theorem trim_trim (l : List Nat) : trim (trim l) = trim l := by
  unfold trim
  have hAdw : ((l.dropWhile isSpc).dropWhile isSpc) = l.dropWhile isSpc :=
    dropWhile_dropWhile isSpc l
  set A := l.dropWhile isSpc with hA
  set X := (A.reverse.dropWhile isSpc).reverse with hX
  have hsplit : A = X ++ (A.reverse.takeWhile isSpc).reverse := by
    conv_lhs => rw [← List.reverse_reverse A,
      ← List.takeWhile_append_dropWhile (p := isSpc) (l := A.reverse)]
    rw [List.reverse_append, hX]
  have hXdw : X.dropWhile isSpc = X :=
    dropWhile_eq_self_of_append isSpc X _ A hAdw hsplit
  rw [hXdw, hX, List.reverse_reverse, dropWhile_dropWhile]

theorem mem_trim {a : Nat} {l : List Nat} (h : a ∈ trim l) : a ∈ l := by
  unfold trim at h
  rw [List.mem_reverse] at h
  have h1 := (List.dropWhile_sublist isSpc).subset h
  rw [List.mem_reverse] at h1
  exact (List.dropWhile_sublist isSpc).subset h1

theorem map_id_of (f : Nat → Nat) (l : List Nat) (h : ∀ a ∈ l, f a = a) : l.map f = l := by
  induction l with
  | nil => rfl
  | cons a as ih =>
    simp only [List.map_cons]
    rw [h a (by simp), ih (fun b hb => h b (by simp [hb]))]

theorem lowerN_lowerN (n : Nat) : lowerN (lowerN n) = lowerN n := by
  unfold lowerN
  split
  · split <;> omega
  · rfl

theorem keepN_lowerN (n : Nat) (h : keepN n = true) : keepN (lowerN n) = true := by
  simp only [keepN, isSpc, lowerN, Bool.or_eq_true, Bool.and_eq_true,
    decide_eq_true_eq, beq_iff_eq] at h ⊢
  split <;> omega

/-! Claim theorems. -/

/-- C7: normalize_text is a total function that is idempotent, and empty input
yields empty output. -/
theorem normalize_text_idempotent :
    (∀ x : List Nat, normalize_text (normalize_text x) = normalize_text x) ∧
    normalize_text [] = [] := by
  refine ⟨fun x => ?_, rfl⟩
  have hM : ∀ a ∈ (x.filter keepN).map lowerN, keepN a = true ∧ lowerN a = a := by
    intro a ha
    rcases List.mem_map.1 ha with ⟨b, hb, rfl⟩
    exact ⟨keepN_lowerN b (List.mem_filter.1 hb).2, lowerN_lowerN b⟩
  simp only [normalize_text]
  rw [List.filter_eq_self.mpr (fun a ha => (hM a (mem_trim ha)).1),
    map_id_of lowerN _ (fun a ha => (hM a (mem_trim ha)).2), trim_trim]

/-- C6: has_wakeword holds exactly when the normalized text starts with the wake
phrase or with the bare keyword jarvis (prefix-based); the greeting example matches
and strips to the command, the bare wakeword strips to empty, and text starting with
neither does not match. -/
theorem has_wakeword_spec :
    (∀ t : List Nat, has_wakeword t = true ↔
      (startsL (enc "hey jarvis") (normalize_text t) = true ∨
       startsL (enc "jarvis") (normalize_text t) = true)) ∧
    has_wakeword (enc "Hey Jarvis, open chrome") = true ∧
    strip_wakeword (enc "Hey Jarvis, open chrome") = enc "open chrome" ∧
    strip_wakeword (enc "jarvis") = [] ∧
    has_wakeword (enc "What's the weather") = false := by
  refine ⟨fun t => ?_, by decide, by decide, by decide, by decide⟩
  by_cases h : t = []
  · subst h; decide
  · simp only [has_wakeword, if_neg h, Bool.or_eq_true, WAKEWORD]

/-- C10: the bare typed word jarvis passes the wakeword test, strips to nothing, and
is therefore dispatched un-stripped, where it matches no classification rule before
the final generic web-search branch. -/
theorem on_command_bare_wakeword :
    has_wakeword (enc "jarvis") = true ∧
    strip_wakeword (enc "jarvis") = [] ∧
    (∀ env : Env, (on_command env (enc "jarvis")).1 = some (enc "jarvis")) ∧
    (∀ wres gA gUres fres oFres oAres rq sres hm,
      (process_command (mkEnv wres gA gUres fres oFres oAres rq sres hm) (enc "jarvis")).1 =
        some (Intent.genericSearch (enc "jarvis"))) := by
  refine ⟨by decide, by decide, fun env => rfl, ?_⟩
  intro wres gA gUres fres oFres oAres rq sres hm
  cases gA with
  | false => rfl
  | true =>
    rcases gUres with e | urls
    · rfl
    · cases urls with
      | nil => rfl
      | cons u us => rfl

/-- C4: the resolver fallback chain is sequential and short-circuits on first
success: a non-empty structured result is returned as Found tagged structured with
no web-stage call; when the structured stage fails and the web stage returns text,
the outcome is Found tagged web; when both fail the outcome is NotFound. -/
theorem resolve_fallback_chain :
    (∀ (env : Env) (q s : List Nat), env.wiki q = Except.ok s → s ≠ [] →
      resolve env q = (LookupOutcome.found s (enc "structured"), [Effect.wikiLookup q])) ∧
    (∀ (env : Env) (q w : List Nat), env.wiki q = Except.error () →
      (google_first_snippet env q).1 = some w →
      (resolve env q).1 = LookupOutcome.found w (enc "web")) ∧
    (∀ (env : Env) (q : List Nat), env.wiki q = Except.error () →
      (google_first_snippet env q).1 = none →
      (resolve env q).1 = LookupOutcome.notFound) := by
  refine ⟨?_, ?_, ?_⟩
  · intro env q s hw hs
    simp only [resolve, search_wikipedia, hw, if_pos hs]
  · intro env q w hw hg
    simp only [resolve, search_wikipedia, hw, hg]
  · intro env q hw hg
    simp only [resolve, search_wikipedia, hw, hg]

theorem resolve_fallback_chain_witness :
    (envOk.wiki (enc "q") = Except.ok (enc "W") ∧ enc "W" ≠ [] ∧
      resolve envOk (enc "q") = (LookupOutcome.found (enc "W") (enc "structured"), [Effect.wikiLookup (enc "q")])) ∧
    (envWebOnly.wiki (enc "q") = Except.error () ∧
      (google_first_snippet envWebOnly (enc "q")).1 = some (enc "T\n\nP\n\nSource: u") ∧
      (resolve envWebOnly (enc "q")).1 = LookupOutcome.found (enc "T\n\nP\n\nSource: u") (enc "web")) ∧
    (envNoneFound.wiki (enc "q") = Except.error () ∧
      (google_first_snippet envNoneFound (enc "q")).1 = none ∧
      (resolve envNoneFound (enc "q")).1 = LookupOutcome.notFound) :=
  ⟨⟨rfl, by decide, resolve_fallback_chain.1 envOk (enc "q") (enc "W") rfl (by decide)⟩,
   ⟨rfl, by decide, resolve_fallback_chain.2.1 envWebOnly (enc "q") (enc "T\n\nP\n\nSource: u") rfl (by decide)⟩,
   ⟨rfl, by decide, resolve_fallback_chain.2.2 envNoneFound (enc "q") rfl (by decide)⟩⟩

/-- C8: an exception raised inside either lookup stage is caught at that stage and
downgraded: a raising wikipedia collaborator makes search_wikipedia return None, a
raising URL-discovery step makes google_first_snippet return None, and a raising
per-candidate fetch only skips that candidate; the embedded stages are total, so no
lookup failure escapes to the dispatch pipeline. -/
theorem lookup_failures_downgraded :
    (∀ (env : Env) (q : List Nat), env.wiki q = Except.error () →
      search_wikipedia env q = none) ∧
    (∀ (env : Env) (q : List Nat), env.googleUrls q = Except.error () →
      (google_first_snippet env q).1 = none) ∧
    (∀ (env : Env) (u : List Nat) (us : List (List Nat)), env.fetch u = Except.error () →
      snippetLoop env (u :: us) = snippetLoop env us) := by
  refine ⟨?_, ?_, ?_⟩
  · intro env q hw
    simp only [search_wikipedia, hw]
  · intro env q hg
    cases hA : env.googleAvail <;> simp [google_first_snippet, hg, hA]
  · intro env u us hf
    simp only [snippetLoop, hf]

theorem lookup_failures_downgraded_witness :
    (envAllRaise.wiki (enc "q") = Except.error () ∧ search_wikipedia envAllRaise (enc "q") = none) ∧
    (envAllRaise.googleUrls (enc "q") = Except.error () ∧
      (google_first_snippet envAllRaise (enc "q")).1 = none) ∧
    (envAllRaise.fetch (enc "u") = Except.error () ∧
      snippetLoop envAllRaise [enc "u"] = snippetLoop envAllRaise []) :=
  ⟨⟨rfl, lookup_failures_downgraded.1 envAllRaise (enc "q") rfl⟩,
   ⟨rfl, lookup_failures_downgraded.2.1 envAllRaise (enc "q") rfl⟩,
   ⟨rfl, lookup_failures_downgraded.2.2 envAllRaise (enc "u") [] rfl⟩⟩

/-- C2 counterexample: with the URL-discovery collaborator unavailable, the web
lookup stage itself opens a browser search while returning NotFound, so the resolver
stages do perform a UI/browser side effect, contrary to the claim. -/
theorem resolver_browser_effect_cex :
    (google_first_snippet envNoGoogle (enc "q")).1 = none ∧
    (google_first_snippet envNoGoogle (enc "q")).2 =
      [Effect.browserOpen (enc "https://www.google.com/search?q=q")] ∧
    Effect.browserOpen (enc "https://www.google.com/search?q=q") ∈
      (resolve envNoGoogle (enc "q")).2 := by
  decide

/-- C2 amended: when URL discovery is available and does not raise, the resolver
stages perform no browser side effects and total NotFound only returns NotFound;
the final browser-search fallback on a failed question lookup is emitted by the
dispatcher branch of process_command, as witnessed on a concrete question. -/
theorem resolver_browser_effects :
    (∀ (env : Env) (q : List Nat) (urls : List (List Nat)), env.googleAvail = true →
      env.googleUrls q = Except.ok urls →
      (google_first_snippet env q).2 = [] ∧
      ∀ u, Effect.browserOpen u ∉ (resolve env q).2) ∧
    Effect.browserOpen (searchUrl envNoneFound (enc "what is x")) ∈
      (process_command envNoneFound (enc "what is x")).2 := by
  refine ⟨?_, by decide⟩
  intro env q urls hA hg
  have hfx : (google_first_snippet env q).2 = [] := by
    simp [google_first_snippet, hA, hg]
  refine ⟨hfx, fun u => ?_⟩
  rcases hsw : search_wikipedia env q with _ | s
  · simp [resolve, hsw, hfx]
  · by_cases hs : s = []
    · simp [resolve, hsw, hs, hfx]
    · simp [resolve, hsw, hs, hfx]

theorem resolver_browser_effects_witness :
    envOk.googleAvail = true ∧ envOk.googleUrls (enc "q") = Except.ok [enc "http://a"] ∧
    (google_first_snippet envOk (enc "q")).2 = [] ∧
    Effect.browserOpen (enc "x") ∉ (resolve envOk (enc "q")).2 :=
  ⟨rfl, rfl, (resolver_browser_effects.1 envOk (enc "q") [enc "http://a"] rfl rfl).1,
   (resolver_browser_effects.1 envOk (enc "q") [enc "http://a"] rfl rfl).2 (enc "x")⟩

/-- C3 counterexample: a single candidate fetched with status 200 but empty
extracted paragraph text still produces a Found result carrying title and source
URL, where the claim requires NotFound after exhausting candidates without a
non-empty extraction. -/
theorem snippet_empty_extraction_cex :
    (google_first_snippet envEmptyPage (enc "q")).1 = some (enc "u\n\nSource: u") ∧
    (google_first_snippet envEmptyPage (enc "q")).1 ≠ none := by
  decide

/-- C3 amended: the web-lookup candidate loop skips a candidate whose fetch raises
or whose status is not exactly 200, and returns Found at the first 200-status
candidate: title, snippet and source URL when the stripped paragraph text is
non-empty, title and source URL otherwise; NotFound arises only from exhausting
all candidates or from URL discovery itself failing. -/
theorem google_first_snippet_spec :
    (∀ (env : Env) (u : List Nat) (us : List (List Nat)), env.fetch u = Except.error () →
      snippetLoop env (u :: us) = snippetLoop env us) ∧
    (∀ (env : Env) (u : List Nat) (us : List (List Nat)) (pg : Page),
      env.fetch u = Except.ok pg → pg.status ≠ 200 →
      snippetLoop env (u :: us) = snippetLoop env us) ∧
    (∀ (env : Env) (u : List Nat) (us : List (List Nat)) (pg : Page),
      env.fetch u = Except.ok pg → pg.status = 200 → (pg.para.map trim).getD [] ≠ [] →
      snippetLoop env (u :: us) =
        some ((pg.title.map trim).getD u ++ enc "\n\n" ++ (pg.para.map trim).getD [] ++
          enc "\n\nSource: " ++ u)) ∧
    (∀ (env : Env) (u : List Nat) (us : List (List Nat)) (pg : Page),
      env.fetch u = Except.ok pg → pg.status = 200 → (pg.para.map trim).getD [] = [] →
      snippetLoop env (u :: us) = some ((pg.title.map trim).getD u ++ enc "\n\nSource: " ++ u)) ∧
    (∀ env : Env, snippetLoop env [] = none) ∧
    (∀ (env : Env) (q : List Nat), env.googleAvail = true → env.googleUrls q = Except.error () →
      (google_first_snippet env q).1 = none) := by
  refine ⟨?_, ?_, ?_, ?_, fun env => rfl, ?_⟩
  · intro env u us hf
    simp only [snippetLoop, hf]
  · intro env u us pg hf h200
    simp only [snippetLoop, hf, if_pos h200]
  · intro env u us pg hf h200 hpara
    simp only [snippetLoop, hf]
    rw [if_neg (by simp [h200]), if_pos hpara]
  · intro env u us pg hf h200 hpara
    simp only [snippetLoop, hf]
    rw [if_neg (by simp [h200]), if_neg (by simp [hpara])]
  · intro env q hA hg
    simp [google_first_snippet, hA, hg]

theorem google_first_snippet_spec_witness :
    (envAllRaise.fetch (enc "u") = Except.error () ∧
      snippetLoop envAllRaise [enc "u"] = snippetLoop envAllRaise []) ∧
    (env404.fetch (enc "u") = Except.ok ⟨404, some (enc "T"), some (enc "P")⟩ ∧
      snippetLoop env404 [enc "u"] = snippetLoop env404 []) ∧
    snippetLoop envWebOnly [enc "u"] = some (enc "T\n\nP\n\nSource: u") ∧
    snippetLoop envEmptyPage [enc "u"] = some (enc "u\n\nSource: u") ∧
    (google_first_snippet envAllRaise (enc "q")).1 = none := by
  refine ⟨⟨rfl, google_first_snippet_spec.1 envAllRaise (enc "u") [] rfl⟩,
    ⟨rfl, google_first_snippet_spec.2.1 env404 (enc "u") [] ⟨404, some (enc "T"), some (enc "P")⟩ rfl (by decide)⟩,
    ?_, ?_, google_first_snippet_spec.2.2.2.2.2 envAllRaise (enc "q") rfl rfl⟩
  · have h := google_first_snippet_spec.2.2.1 envWebOnly (enc "u") []
      ⟨200, some (enc "T"), some (enc "P")⟩ rfl rfl (by decide)
    exact h
  · have h := google_first_snippet_spec.2.2.2.1 envEmptyPage (enc "u") []
      ⟨200, none, none⟩ rfl rfl (by decide)
    exact h

/-- C5 counterexample: for the command open folder my documents, the dispatched
path argument is the whole remainder after the second space, my documents, not the
third whitespace-delimited token my required by the claim. -/
theorem open_folder_path_cex :
    (process_command envOk (enc "open folder my documents")).1 =
      some (Intent.openFolder (enc "my documents")) ∧
    (process_command envOk (enc "open folder my documents")).1 ≠
      some (Intent.openFolder (enc "my")) := by
  decide

/-- C5 amended: classification is ordered first-match, and an open folder or open
directory command always classifies as OpenFolder (never OpenAppOrUrl) with path
argument equal to the remainder after the second space, defaulting to the user home
directory when fewer than two spaces are present; in particular open folder
downloads yields path downloads. -/
theorem open_folder_classification :
    (∀ wres gA gUres fres oFres oAres rq sres hm,
      (process_command (mkEnv wres gA gUres fres oFres oAres rq sres hm)
        (enc "open folder downloads")).1 = some (Intent.openFolder (enc "downloads")) ∧
      (process_command (mkEnv wres gA gUres fres oFres oAres rq sres hm)
        (enc "open folder")).1 = some (Intent.openFolder hm)) ∧
    (∀ (env : Env) (t : List Nat), trim t ≠ [] →
      (startsL (enc "open folder") (trim ((trim t).map lowerN)) = true ∨
       startsL (enc "open directory") (trim ((trim t).map lowerN)) = true) →
      (process_command env t).1 =
        some (Intent.openFolder (((afterSpace (trim t)).bind afterSpace).getD env.home))) := by
  constructor
  · intro wres gA gUres fres oFres oAres rq sres hm
    rcases oFres with ⟨ok, msg⟩
    cases ok <;> exact ⟨rfl, rfl⟩
  · intro env t hne hpre
    have hcond : (startsL (enc "open folder") (trim (List.map lowerN (trim t))) ||
        startsL (enc "open directory") (trim (List.map lowerN (trim t)))) = true := by
      rcases hpre with h | h <;> simp [h]
    simp only [process_command, if_neg hne, hcond, if_pos, openFolderBranch]
    split <;> rfl

theorem open_folder_classification_witness :
    trim (enc "open directory docs") ≠ [] ∧
    startsL (enc "open directory") (trim ((trim (enc "open directory docs")).map lowerN)) = true ∧
    (process_command envOk (enc "open directory docs")).1 =
      some (Intent.openFolder (((afterSpace (trim (enc "open directory docs"))).bind
        afterSpace).getD envOk.home)) :=
  ⟨by decide, by decide,
   open_folder_classification.2 envOk (enc "open directory docs") (by decide) (Or.inr (by decide))⟩

/-- C9: the listening loop sleeps the fixed half-unit backoff and re-polls on every
failed capture, never failing on arbitrarily many of them; the session flag is read
only at the top of an iteration, so a cleared flag stops the loop before any capture,
while an utterance already captured is dispatched to completion even when the flag is
cleared immediately afterwards. -/
theorem listening_loop_robustness :
    (∀ (env : Env) (n : Nat), listening_loop env (List.replicate n true) (List.replicate n none) =
      List.replicate n (Effect.sleepTenths 5)) ∧
    (∀ (env : Env) (fs : List Bool) (cs : List (Option (List Nat))),
      listening_loop env (false :: fs) cs = []) ∧
    (∀ (env : Env) (txt : List Nat) (fs : List Bool) (cs : List (Option (List Nat))),
      txt ≠ [] →
      listening_loop env (true :: fs) (some txt :: cs) =
        (voiceIteration env txt cs).1 ++ listening_loop env fs (voiceIteration env txt cs).2) ∧
    (∀ (env : Env) (txt : List Nat) (cs : List (Option (List Nat))),
      txt ≠ [] →
      listening_loop env [true, false] (some txt :: cs) = (voiceIteration env txt cs).1) := by
  refine ⟨fun env n => ?_, fun env fs cs => rfl, fun env txt fs cs h => ?_, fun env txt cs h => ?_⟩
  · induction n with
    | zero => rfl
    | succ m ih => simp [List.replicate_succ, listening_loop, ih]
  · simp [listening_loop, h]
  · simp [listening_loop, h]

theorem listening_loop_robustness_witness :
    enc "hello" ≠ [] ∧
    listening_loop envOk [true, false] [some (enc "hello")] =
      (voiceIteration envOk (enc "hello") []).1 :=
  ⟨by decide, listening_loop_robustness.2.2.2 envOk (enc "hello") [] (by decide)⟩

theorem mem_gfs_effects (env : Env) (q : List Nat) (e : Effect)
    (h : e ∈ (google_first_snippet env q).2) : ∃ u, e = Effect.browserOpen u := by
  unfold google_first_snippet at h
  split at h
  · split at h
    · simp at h
    · simp at h
      exact ⟨_, h⟩
  · simp at h
    exact ⟨_, h⟩

theorem nd_gfs (env : Env) (q : List Nat) (e : Effect)
    (h : e ∈ (google_first_snippet env q).2) : isDestructive e = false := by
  obtain ⟨u, rfl⟩ := mem_gfs_effects env q e h
  rfl

theorem nd_openFolderBranch (env : Env) (t : List Nat) :
    ∀ e ∈ (openFolderBranch env t).2, isDestructive e = false := by
  intro e h
  simp only [openFolderBranch] at h
  repeat' split at h
  all_goals simp at h
  all_goals casesm* _ ∨ _
  all_goals simp_all [isDestructive]

theorem nd_openAppBranch (env : Env) (t : List Nat) :
    ∀ e ∈ (openAppBranch env t).2, isDestructive e = false := by
  intro e h
  simp only [openAppBranch] at h
  repeat' split at h
  all_goals simp at h
  all_goals casesm* _ ∨ _
  all_goals simp_all [isDestructive]

theorem nd_screenshotBranch (env : Env) :
    ∀ e ∈ (screenshotBranch env).2, isDestructive e = false := by
  intro e h
  simp only [screenshotBranch] at h
  repeat' split at h
  all_goals simp at h
  all_goals try casesm* _ ∨ _
  all_goals simp_all [isDestructive]

theorem nd_wikiBranch (env : Env) (t : List Nat) :
    ∀ e ∈ (wikiBranch env t).2, isDestructive e = false := by
  intro e h
  simp only [wikiBranch] at h
  repeat' split at h
  all_goals simp at h
  all_goals casesm* _ ∨ _
  all_goals first
    | exact nd_gfs _ _ _ (by assumption)
    | simp_all [isDestructive]

theorem nd_questionBranch (env : Env) (t : List Nat) :
    ∀ e ∈ (questionBranch env t).2, isDestructive e = false := by
  intro e h
  simp only [questionBranch] at h
  repeat' split at h
  all_goals simp at h
  all_goals casesm* _ ∨ _
  all_goals first
    | exact nd_gfs _ _ _ (by assumption)
    | simp_all [isDestructive]

theorem nd_genericBranch (env : Env) (t : List Nat) :
    ∀ e ∈ (genericBranch env t).2, isDestructive e = false := by
  intro e h
  simp only [genericBranch] at h
  repeat' split at h
  all_goals simp at h
  all_goals casesm* _ ∨ _
  all_goals simp_all [isDestructive]

theorem mem_shutdownBranch_call (tl : List Nat) (b : Bool)
    (h : Effect.shutdownCall b ∈ (shutdownBranch tl).2) :
    b = true ∧ (hasSub (enc "confirm") tl || hasSub (enc "yes") tl) = true := by
  simp only [shutdownBranch] at h
  split at h
  · rename_i hc
    simp [system_shutdown] at h
    exact ⟨h, hc⟩
  · simp at h

theorem mem_shutdownBranch_os (tl : List Nat)
    (h : Effect.osShutdown ∈ (shutdownBranch tl).2) :
    (hasSub (enc "confirm") tl || hasSub (enc "yes") tl) = true := by
  simp only [shutdownBranch] at h
  split at h
  · rename_i hc
    exact hc
  · simp at h

theorem mem_restartBranch_call (tl : List Nat) (b : Bool)
    (h : Effect.restartCall b ∈ (restartBranch tl).2) :
    b = true ∧ (hasSub (enc "confirm") tl || hasSub (enc "yes") tl) = true := by
  simp only [restartBranch] at h
  split at h
  · rename_i hc
    simp [system_restart] at h
    exact ⟨h, hc⟩
  · simp at h

theorem mem_restartBranch_os (tl : List Nat)
    (h : Effect.osRestart ∈ (restartBranch tl).2) :
    (hasSub (enc "confirm") tl || hasSub (enc "yes") tl) = true := by
  simp only [restartBranch] at h
  split at h
  · rename_i hc
    exact hc
  · simp at h

theorem no_shutdown_in_restartBranch (tl : List Nat) (b : Bool) :
    Effect.shutdownCall b ∉ (restartBranch tl).2 := by
  intro h
  simp only [restartBranch] at h
  split at h <;> simp [system_restart] at h

theorem no_osShutdown_in_restartBranch (tl : List Nat) :
    Effect.osShutdown ∉ (restartBranch tl).2 := by
  intro h
  simp only [restartBranch] at h
  split at h <;> simp [system_restart] at h

theorem no_restart_in_shutdownBranch (tl : List Nat) (b : Bool) :
    Effect.restartCall b ∉ (shutdownBranch tl).2 := by
  intro h
  simp only [shutdownBranch] at h
  split at h <;> simp [system_shutdown] at h

theorem no_osRestart_in_shutdownBranch (tl : List Nat) :
    Effect.osRestart ∉ (shutdownBranch tl).2 := by
  intro h
  simp only [shutdownBranch] at h
  split at h <;> simp [system_shutdown] at h

/-- C1 counterexample: the command launch shutdown yes contains both shutdown and
yes, yet classification reaches the earlier open/launch branch first, so the
shutdown collaborator is not invoked (and no confirmation request is emitted),
contradicting the claim for every text containing shutdown. -/
theorem shutdown_gate_cex :
    hasSub (enc "shutdown") (trim ((trim (enc "launch shutdown yes")).map lowerN)) = true ∧
    hasSub (enc "yes") (trim ((trim (enc "launch shutdown yes")).map lowerN)) = true ∧
    (process_command envOk (enc "launch shutdown yes")).1 =
      some (Intent.openAppOrUrl (enc "shutdown yes")) ∧
    (∀ b, Effect.shutdownCall b ∉ (process_command envOk (enc "launch shutdown yes")).2) ∧
    Effect.osShutdown ∉ (process_command envOk (enc "launch shutdown yes")).2 := by
  decide

set_option maxHeartbeats 1600000 in
/-- C1 amended: the shutdown and restart collaborators are only ever invoked with
confirmation true, and only when the lowercased text contains confirm or yes (this
safety half holds for every command); and for every text that reaches the shutdown
branch (no earlier open-folder or open/launch prefix match) and contains shutdown,
presence of confirm or yes invokes the collaborator with confirmation while absence
produces no shutdown call and a spoken confirmation request; the same gate holds for
the restart branch, reached when shutdown is absent and restart or reboot present. -/
theorem process_command_confirmation_gate :
    (∀ (env : Env) (t : List Nat) (b : Bool),
      Effect.shutdownCall b ∈ (process_command env t).2 →
      b = true ∧ (hasSub (enc "confirm") (trim ((trim t).map lowerN)) = true ∨
        hasSub (enc "yes") (trim ((trim t).map lowerN)) = true)) ∧
    (∀ (env : Env) (t : List Nat),
      Effect.osShutdown ∈ (process_command env t).2 →
      hasSub (enc "confirm") (trim ((trim t).map lowerN)) = true ∨
        hasSub (enc "yes") (trim ((trim t).map lowerN)) = true) ∧
    (∀ (env : Env) (t : List Nat) (b : Bool),
      Effect.restartCall b ∈ (process_command env t).2 →
      b = true ∧ (hasSub (enc "confirm") (trim ((trim t).map lowerN)) = true ∨
        hasSub (enc "yes") (trim ((trim t).map lowerN)) = true)) ∧
    (∀ (env : Env) (t : List Nat),
      Effect.osRestart ∈ (process_command env t).2 →
      hasSub (enc "confirm") (trim ((trim t).map lowerN)) = true ∨
        hasSub (enc "yes") (trim ((trim t).map lowerN)) = true) ∧
    (∀ (env : Env) (t tl : List Nat), tl = trim ((trim t).map lowerN) → trim t ≠ [] →
      startsL (enc "open folder") tl = false → startsL (enc "open directory") tl = false →
      startsL (enc "open ") tl = false → startsL (enc "launch ") tl = false →
      hasSub (enc "shutdown") tl = true →
      ((hasSub (enc "confirm") tl || hasSub (enc "yes") tl) = true →
        Effect.shutdownCall true ∈ (process_command env t).2 ∧
        Effect.osShutdown ∈ (process_command env t).2) ∧
      ((hasSub (enc "confirm") tl || hasSub (enc "yes") tl) = false →
        (∀ b, Effect.shutdownCall b ∉ (process_command env t).2) ∧
        Effect.osShutdown ∉ (process_command env t).2 ∧
        Effect.speak (enc "Shutdown requested. Say shutdown confirm to proceed.") ∈
          (process_command env t).2)) ∧
    (∀ (env : Env) (t tl : List Nat), tl = trim ((trim t).map lowerN) → trim t ≠ [] →
      startsL (enc "open folder") tl = false → startsL (enc "open directory") tl = false →
      startsL (enc "open ") tl = false → startsL (enc "launch ") tl = false →
      hasSub (enc "shutdown") tl = false →
      (hasSub (enc "restart") tl || hasSub (enc "reboot") tl) = true →
      ((hasSub (enc "confirm") tl || hasSub (enc "yes") tl) = true →
        Effect.restartCall true ∈ (process_command env t).2 ∧
        Effect.osRestart ∈ (process_command env t).2) ∧
      ((hasSub (enc "confirm") tl || hasSub (enc "yes") tl) = false →
        (∀ b, Effect.restartCall b ∉ (process_command env t).2) ∧
        Effect.osRestart ∉ (process_command env t).2 ∧
        Effect.speak (enc "Restart requested. Say restart confirm to proceed.") ∈
          (process_command env t).2)) := by
  refine ⟨?_, ?_, ?_, ?_, ?_, ?_⟩
  · intro env t b hmem
    simp only [process_command] at hmem
    repeat' split at hmem
    · exact absurd hmem (by simp)
    · exact absurd (nd_openFolderBranch _ _ _ hmem) (by simp [isDestructive])
    · exact absurd (nd_openAppBranch _ _ _ hmem) (by simp [isDestructive])
    · exact ⟨(mem_shutdownBranch_call _ _ hmem).1,
        Bool.or_eq_true _ _ ▸ (mem_shutdownBranch_call _ _ hmem).2⟩
    · exact absurd hmem (no_shutdown_in_restartBranch _ _)
    · exact absurd (nd_screenshotBranch _ _ hmem) (by simp [isDestructive])
    · exact absurd hmem (by simp)
    · exact absurd (nd_wikiBranch _ _ _ hmem) (by simp [isDestructive])
    · exact absurd (nd_questionBranch _ _ _ hmem) (by simp [isDestructive])
    · exact absurd (nd_genericBranch _ _ _ hmem) (by simp [isDestructive])
  · intro env t hmem
    simp only [process_command] at hmem
    repeat' split at hmem
    · exact absurd hmem (by simp)
    · exact absurd (nd_openFolderBranch _ _ _ hmem) (by simp [isDestructive])
    · exact absurd (nd_openAppBranch _ _ _ hmem) (by simp [isDestructive])
    · exact Bool.or_eq_true _ _ ▸ mem_shutdownBranch_os _ hmem
    · exact absurd hmem (no_osShutdown_in_restartBranch _)
    · exact absurd (nd_screenshotBranch _ _ hmem) (by simp [isDestructive])
    · exact absurd hmem (by simp)
    · exact absurd (nd_wikiBranch _ _ _ hmem) (by simp [isDestructive])
    · exact absurd (nd_questionBranch _ _ _ hmem) (by simp [isDestructive])
    · exact absurd (nd_genericBranch _ _ _ hmem) (by simp [isDestructive])
  · intro env t b hmem
    simp only [process_command] at hmem
    repeat' split at hmem
    · exact absurd hmem (by simp)
    · exact absurd (nd_openFolderBranch _ _ _ hmem) (by simp [isDestructive])
    · exact absurd (nd_openAppBranch _ _ _ hmem) (by simp [isDestructive])
    · exact absurd hmem (no_restart_in_shutdownBranch _ _)
    · exact ⟨(mem_restartBranch_call _ _ hmem).1,
        Bool.or_eq_true _ _ ▸ (mem_restartBranch_call _ _ hmem).2⟩
    · exact absurd (nd_screenshotBranch _ _ hmem) (by simp [isDestructive])
    · exact absurd hmem (by simp)
    · exact absurd (nd_wikiBranch _ _ _ hmem) (by simp [isDestructive])
    · exact absurd (nd_questionBranch _ _ _ hmem) (by simp [isDestructive])
    · exact absurd (nd_genericBranch _ _ _ hmem) (by simp [isDestructive])
  · intro env t hmem
    simp only [process_command] at hmem
    repeat' split at hmem
    · exact absurd hmem (by simp)
    · exact absurd (nd_openFolderBranch _ _ _ hmem) (by simp [isDestructive])
    · exact absurd (nd_openAppBranch _ _ _ hmem) (by simp [isDestructive])
    · exact absurd hmem (no_osRestart_in_shutdownBranch _)
    · exact Bool.or_eq_true _ _ ▸ mem_restartBranch_os _ hmem
    · exact absurd (nd_screenshotBranch _ _ hmem) (by simp [isDestructive])
    · exact absurd hmem (by simp)
    · exact absurd (nd_wikiBranch _ _ _ hmem) (by simp [isDestructive])
    · exact absurd (nd_questionBranch _ _ _ hmem) (by simp [isDestructive])
    · exact absurd (nd_genericBranch _ _ _ hmem) (by simp [isDestructive])
  · intro env t tl htl hne hof hod hop hla hsd
    subst htl
    have hred : process_command env t = shutdownBranch (trim ((trim t).map lowerN)) := by
      simp only [process_command]
      rw [if_neg hne, if_neg (by simp [hof, hod]), if_neg (by simp [hop, hla]), if_pos hsd]
    rw [hred]
    constructor
    · intro hcf
      simp only [shutdownBranch]
      rw [if_pos hcf]
      simp [system_shutdown]
    · intro hcf
      simp only [shutdownBranch]
      rw [if_neg (by simp [hcf])]
      refine ⟨fun b => by simp, by simp, by simp⟩
  · intro env t tl htl hne hof hod hop hla hsd hrb
    subst htl
    have hred : process_command env t = restartBranch (trim ((trim t).map lowerN)) := by
      simp only [process_command]
      rw [if_neg hne, if_neg (by simp [hof, hod]), if_neg (by simp [hop, hla]),
        if_neg (by simp [hsd]), if_pos hrb]
    rw [hred]
    constructor
    · intro hcf
      simp only [restartBranch]
      rw [if_pos hcf]
      simp [system_restart]
    · intro hcf
      simp only [restartBranch]
      rw [if_neg (by simp [hcf])]
      refine ⟨fun b => by simp, by simp, by simp⟩

theorem process_command_confirmation_gate_witness :
    (Effect.shutdownCall true ∈ (process_command envOk (enc "shutdown confirm")).2 ∧
     Effect.osShutdown ∈ (process_command envOk (enc "shutdown confirm")).2) ∧
    (hasSub (enc "confirm") (trim ((trim (enc "shutdown confirm")).map lowerN)) = true ∨
     hasSub (enc "yes") (trim ((trim (enc "shutdown confirm")).map lowerN)) = true) ∧
    (∀ b, Effect.shutdownCall b ∉ (process_command envOk (enc "shutdown")).2) ∧
    Effect.speak (enc "Shutdown requested. Say shutdown confirm to proceed.") ∈
      (process_command envOk (enc "shutdown")).2 ∧
    (Effect.restartCall true ∈ (process_command envOk (enc "please reboot yes")).2 ∧
     Effect.osRestart ∈ (process_command envOk (enc "please reboot yes")).2) ∧
    (∀ b, Effect.restartCall b ∉ (process_command envOk (enc "restart now")).2) := by
  refine ⟨?_, ?_, ?_, ?_, ?_, ?_⟩
  · exact (process_command_confirmation_gate.2.2.2.2.1 envOk (enc "shutdown confirm") _
      rfl (by decide) (by decide) (by decide) (by decide) (by decide) (by decide)).1 (by decide)
  · exact (process_command_confirmation_gate.1 envOk (enc "shutdown confirm") true (by decide)).2
  · exact ((process_command_confirmation_gate.2.2.2.2.1 envOk (enc "shutdown") _
      rfl (by decide) (by decide) (by decide) (by decide) (by decide) (by decide)).2 (by decide)).1
  · exact ((process_command_confirmation_gate.2.2.2.2.1 envOk (enc "shutdown") _
      rfl (by decide) (by decide) (by decide) (by decide) (by decide) (by decide)).2 (by decide)).2.2
  · exact (process_command_confirmation_gate.2.2.2.2.2 envOk (enc "please reboot yes") _
      rfl (by decide) (by decide) (by decide) (by decide) (by decide) (by decide) (by decide)).1 (by decide)
  · exact ((process_command_confirmation_gate.2.2.2.2.2 envOk (enc "restart now") _
      rfl (by decide) (by decide) (by decide) (by decide) (by decide) (by decide) (by decide)).2 (by decide)).1
